import Mathlib

/-!
Verification development for the TruckLog Pro ELD route planner
(React frontend: `TripForm`, `App`, `TripSummary`, `ELDLogs`, `RouteMap`,
plus a spec-modelled HOS scheduling engine).

JavaScript numbers that can be `NaN`/`undefined` along the modelled paths
are embedded as `Option ℚ` (`none` = NaN or a missing field); every
arithmetic helper propagates `none` exactly as JS propagates NaN.
-/

set_option maxHeartbeats 1000000

/-- A JS numeric value: `none` models `NaN` (or `undefined` flowing into
arithmetic, which JS coerces to `NaN`). -/
abbrev JSNum := Option ℚ

/-- JS `+` on numbers: `NaN` absorbs. -/
def jsAdd : JSNum → JSNum → JSNum
  | some a, some b => some (a + b)
  | _, _ => none

/-- JS `-` on numbers: `NaN` absorbs. -/
def jsSub : JSNum → JSNum → JSNum
  | some a, some b => some (a - b)
  | _, _ => none

/-- JS `Math.max(0, x)`: `Math.max(0, NaN)` is `NaN`. -/
def jsMax0 : JSNum → JSNum
  | some a => some (max 0 a)
  | none => none

/-- JS `a || b` for a string `a` (empty string and `undefined` are falsy),
with `none` modelling an absent/undefined value. -/
def jsOrStr : Option String → String → String
  | some a, b => if a = "" then b else a
  | none, b => b

/-- JS string truthiness: `undefined` and `""` are falsy. -/
def strTruthy : Option String → Bool
  | some s => s ≠ ""
  | none => false

/- ──────────────────────────────────────────────────────────────────────
   TripForm.jsx — form values, validation, submission
   ────────────────────────────────────────────────────────────────────── -/

/-- The state of the trip form (`values` in `TripForm`).  The
`cycle_hours_used` field holds the result of `parseFloat(values.cycle_hours_used)`:
`none` models `NaN` (a non-numeric entry). -/
structure FormValues where
  current_location : String
  pickup_location : String
  dropoff_location : String
  cycle_hours_used : Option ℚ
  driver_name : String
  carrier_name : String
deriving DecidableEq

/-- The JSON object `handleSubmit` passes to `onSubmit`. -/
structure TripRequest where
  current_location : String
  pickup_location : String
  dropoff_location : String
  cycle_hours_used : ℚ
  driver_name : String
  carrier_name : String
deriving DecidableEq

/-- `validate` from `TripForm.jsx`: the list of `(field, message)` errors.
`!values.x.trim()` is true exactly when the trimmed string is empty;
`isNaN(c) || c < 0 || c > 70` rejects the cycle-hours entry. -/
def validate (v : FormValues) : List (String × String) :=
  (if v.current_location.trim = "" then [("current_location", "Required")] else []) ++
  (if v.pickup_location.trim = "" then [("pickup_location", "Required")] else []) ++
  (if v.dropoff_location.trim = "" then [("dropoff_location", "Required")] else []) ++
  (match v.cycle_hours_used with
   | none => [("cycle_hours_used", "Must be 0–70 hrs")]
   | some c => if c < 0 ∨ 70 < c then [("cycle_hours_used", "Must be 0–70 hrs")] else [])

/-- The request object built by `handleSubmit` once validation passes
(trimmed locations, parsed cycle hours, defaulted driver/carrier). -/
def buildRequest (v : FormValues) (c : ℚ) : TripRequest :=
  { current_location := v.current_location.trim
    pickup_location := v.pickup_location.trim
    dropoff_location := v.dropoff_location.trim
    cycle_hours_used := c
    driver_name := jsOrStr (some v.driver_name.trim) "Driver"
    carrier_name := jsOrStr (some v.carrier_name.trim) "Motor Carrier" }

/-- `handleSubmit` from `TripForm.jsx`: `onSubmit` receives `some` request
exactly when `validate` returned no errors; otherwise the submission is
blocked (`none`). -/
def handleSubmit (v : FormValues) : Option TripRequest :=
  if validate v = [] then v.cycle_hours_used.map (buildRequest v) else none

/-- The scheduling-relevant fields of a submitted request (everything
except the driver/carrier metadata). -/
def schedulingFields (r : TripRequest) : String × String × String × ℚ :=
  (r.current_location, r.pickup_location, r.dropoff_location, r.cycle_hours_used)

/- ──────────────────────────────────────────────────────────────────────
   ELDLogs.jsx — fmtHr helper
   ────────────────────────────────────────────────────────────────────── -/

/-- The components computed by `fmtHr` in `ELDLogs.jsx`:
`h = Math.floor(hour)`, `m = Math.round((hour - h) * 60)`
(JS `Math.round` is floor of `x + 1/2`), `period = h < 12 ? 'AM' : 'PM'`,
`dh = h === 0 ? 12 : h > 12 ? h - 12 : h`.
Returns `(dh, m, period)`. -/
def fmtHrParts (hour : ℚ) : ℤ × ℤ × String :=
  let h : ℤ := ⌊hour⌋
  let m : ℤ := ⌊(hour - h) * 60 + 1 / 2⌋
  let period := if h < 12 then "AM" else "PM"
  let dh := if h = 0 then 12 else if 12 < h then h - 12 else h
  (dh, m, period)

/-- `String(m).padStart(2, '0')`. -/
def padTwo (m : ℤ) : String :=
  let s := toString m
  if s.length < 2 then "0" ++ s else s

/-- `fmtHr` from `ELDLogs.jsx`, returning the rendered 12-hour clock string. -/
def fmtHr (hour : ℚ) : String :=
  let p := fmtHrParts hour
  toString p.1 ++ ":" ++ padTwo p.2.1 ++ " " ++ p.2.2

/- ──────────────────────────────────────────────────────────────────────
   RouteMap.jsx — fuel/rest stop marker index on the route polyline
   ────────────────────────────────────────────────────────────────────── -/

/-- The polyline index RouteMap computes for a fuel/rest stop marker:
`frac = stop.miles_in / Math.max(totalMiles, 1)`;
`idx = Math.min(Math.floor(frac * totalPts), totalPts - 1)`.
When the stop record carries no `miles_in` field (the §6 contract shape for
rest stops), the JS division produces `NaN`, `Math.floor(NaN)` is `NaN` and
`Math.min(NaN, _)` is `NaN`, modelled as `none`. -/
def stopMarkerIdx (miles_in : Option ℚ) (totalMiles : ℚ) (totalPts : ℕ) : Option ℤ :=
  match miles_in with
  | none => none
  | some m =>
    let frac := m / max totalMiles 1
    some (min ⌊frac * (totalPts : ℚ)⌋ ((totalPts : ℤ) - 1))

/-- `latlngs[idx]`: defined only for an actual (non-NaN) index inside the
array; otherwise JS yields `undefined` and the marker has no position. -/
def markerPoint (geometry : List (ℚ × ℚ)) : Option ℤ → Option (ℚ × ℚ)
  | some k => if 0 ≤ k then geometry.get? k.toNat else none
  | none => none

/- ──────────────────────────────────────────────────────────────────────
   ELDLogs.jsx — duty grid, activity lines, remarks, recap, pills
   ────────────────────────────────────────────────────────────────────── -/

/-- `STATUS_ROW` from `ELDLogs.jsx`: the fixed status→row map; statuses
outside the four duty tags are absent (`STATUS_ROW[s] === undefined`). -/
def STATUS_ROW : String → Option ℕ
  | "off_duty" => some 0
  | "sleeper" => some 1
  | "driving" => some 2
  | "on_duty" => some 3
  | _ => none

/-- `STATUS_COLOR` from `ELDLogs.jsx`. -/
def STATUS_COLOR : String → Option String
  | "off_duty" => some "#444444"
  | "sleeper" => some "#1d4ed8"
  | "driving" => some "#d97706"
  | "on_duty" => some "#047857"
  | _ => none

/-- `['off_duty', 'sleeper', 'driving', 'on_duty']` — the row→status-key
array used for the per-row total-hours column. -/
def statusKeys : List String := ["off_duty", "sleeper", "driving", "on_duty"]

/-- A raw timeline segment as the renderer receives it: `status` is an
arbitrary string (the engine contract promises one of the four tags, but
the renderer must tolerate anything), `start`/`stop` are hours-of-day
(`stop` embeds the JS field `end`), `note` is optional. -/
structure RawSeg where
  status : String
  start : ℚ
  stop : ℚ
  note : Option String
deriving DecidableEq

/-- A day record as consumed by `DayLog`/`drawELDLog`: `totals` is a JS
object, so lookup of a status key may be absent (`none`);
`driven_miles` may be absent (`day.driven_miles || 0` in `DayLog`). -/
structure DayData where
  day_num : ℕ
  timeline : List RawSeg
  totals : String → Option ℚ
  driven_miles : Option ℚ

/-- The `meta` prop handed to `ELDLogs`/`DayLog`. -/
structure MetaInfo where
  driverName : Option String
  carrierName : Option String
  fromLoc : Option String
  toLoc : Option String
  totalMiles : Option ℚ

/-- The `info` record `DayLog` builds for `drawELDLog` (header fields). -/
structure HeaderFields where
  date : String
  driver : String
  carrier : String
  fromLoc : String
  toLoc : String
  vehicleNo : String
  dailyMiles : ℚ
  totalMiles : ℚ
deriving DecidableEq

/-- `DayLog`'s construction of the `info` argument
(`meta.driverName || 'Driver'`, `meta.from || '—'`,
`day.driven_miles || 0`, `Math.round(meta.totalMiles) || 0`,
`` `TRK-${1000 + day.day_num}` ``). -/
def buildInfo (d : DayData) (meta : MetaInfo) (dateStr : String) : HeaderFields :=
  { date := dateStr
    driver := jsOrStr meta.driverName "Driver"
    carrier := jsOrStr meta.carrierName "Motor Carrier"
    fromLoc := jsOrStr meta.fromLoc "—"
    toLoc := jsOrStr meta.toLoc "—"
    vehicleNo := "TRK-" ++ toString (1000 + d.day_num)
    dailyMiles := (d.driven_miles).getD 0
    totalMiles := (meta.totalMiles.map (fun q => (round q : ℚ))).getD 0 }

/-- Grid layout constants of `drawELDLog`:
`GRID_X = 88`, `GRID_TOP = 148`, `ROW_H = 36`, `GRID_W = 736`. -/
def gridX : ℚ := 88
def gridTop : ℚ := 148
def rowH : ℚ := 36
def gridW : ℚ := 736

/-- x pixel of an hour-of-day value: `GRID_X + (h / 24) * GRID_W`. -/
def hourX (h : ℚ) : ℚ := gridX + h / 24 * gridW

/-- y pixel of a row's centre line: `GRID_TOP + row * ROW_H + ROW_H / 2`. -/
def rowCY (row : ℕ) : ℚ := gridTop + (row : ℚ) * rowH + rowH / 2

/-- One horizontal activity line drawn on the duty grid. -/
structure ActivityLine where
  row : ℕ
  sx : ℚ
  ex : ℚ
  cy : ℚ
  color : String
deriving DecidableEq

/-- One vertical connector drawn at a duty-status change. -/
structure Connector where
  x : ℚ
  y1 : ℚ
  y2 : ℚ
  color : String
deriving DecidableEq

/-- One drawn remarks entry (dot position, dot colour, label text). -/
structure Remark where
  x : ℚ
  y : ℚ
  color : String
  label : String
deriving DecidableEq

/-- `validSegs`: `dayData.timeline.filter(s => STATUS_ROW[s.status] !== undefined)`. -/
def validSegs (tl : List RawSeg) : List RawSeg :=
  tl.filter (fun s => (STATUS_ROW s.status).isSome)

/-- The activity line for one (valid) segment. -/
def segLine (s : RawSeg) : ActivityLine :=
  let row := (STATUS_ROW s.status).getD 0
  { row := row
    sx := hourX s.start
    ex := hourX s.stop
    cy := rowCY row
    color := (STATUS_COLOR s.status).getD "" }

/-- The `validSegs.forEach` loop of `drawELDLog`: successive activity
lines, plus a vertical connector (in the current segment's colour) whenever
the row changes from the previous segment.  The second argument carries
`(prevRow, prevEndX)`. -/
def activityDraw : List RawSeg → Option (ℕ × ℚ) → List ActivityLine × List Connector
  | [], _ => ([], [])
  | s :: rest, prev =>
    let L := segLine s
    let (ls, cs) := activityDraw rest (some (L.row, L.ex))
    match prev with
    | some pr =>
      if pr.1 ≠ L.row then (L :: ls, ⟨pr.2, rowCY pr.1, L.cy, L.color⟩ :: cs)
      else (L :: ls, cs)
    | none => (L :: ls, cs)

/-- `noteSegs`: `validSegs.filter(s => s.note && s.status !== 'off_duty')`. -/
def noteSegs (tl : List RawSeg) : List RawSeg :=
  (validSegs tl).filter (fun s => strTruthy s.note && s.status ≠ "off_duty")

/-- The remarks layout loop of `drawELDLog`: wraps to the next line when
`rx + tw > 884`, stops drawing entries once `ry > 464`, and advances
`rx` by the measured label width plus 22.  `measure` is the canvas text
metric (`ctx.measureText(label).width`). -/
def remarksDraw (measure : String → ℚ) : List RawSeg → ℚ → ℚ → List Remark
  | [], _, _ => []
  | s :: rest, rx, ry =>
    let label := fmtHr s.start ++ " — " ++ (s.note.getD "")
    let tw := measure label + 22
    let rx1 := if 884 < rx + tw then (16 : ℚ) else rx
    let ry1 := if 884 < rx + tw then ry + 14 else ry
    if 464 < ry1 then remarksDraw measure rest rx1 ry1
    else
      ⟨rx1, ry1, (STATUS_COLOR s.status).getD "#222222", label⟩ ::
        remarksDraw measure rest (rx1 + tw) ry1

/-- The per-row total-hours column:
`(dayData.totals[statusKey] || 0).toFixed(2)` for each of the four rows
(numeric value before string formatting). -/
def rowTotals (d : DayData) : List ℚ :=
  statusKeys.map (fun k => (d.totals k).getD 0)

/-- Recap line A: `dayData.totals.driving + dayData.totals.on_duty`. -/
def recapA (d : DayData) : JSNum := jsAdd (d.totals "driving") (d.totals "on_duty")

/-- Recap line B: `dayData.totals.driving`. -/
def recapB (d : DayData) : JSNum := d.totals "driving"

/-- Recap line C: `dayData.totals.off_duty + dayData.totals.sleeper`. -/
def recapC (d : DayData) : JSNum := jsAdd (d.totals "off_duty") (d.totals "sleeper")

/-- The drive pill of the day header: `totals.driving.toFixed(2)`. -/
def pillDrive (d : DayData) : JSNum := d.totals "driving"

/-- The on-duty pill of the day header: `totals.on_duty.toFixed(2)`. -/
def pillOnDuty (d : DayData) : JSNum := d.totals "on_duty"

/-- The off-duty pill of the day header:
`(totals.off_duty + totals.sleeper).toFixed(2)`. -/
def pillOffDuty (d : DayData) : JSNum := jsAdd (d.totals "off_duty") (d.totals "sleeper")

/-- Everything `drawELDLog` puts on the canvas, grouped: header text
fields, per-row totals, activity lines, connectors, remarks entries,
recapitulation values. -/
structure ELDRender where
  header : HeaderFields
  totalsCol : List ℚ
  lines : List ActivityLine
  connectors : List Connector
  remarks : List Remark
  recA : JSNum
  recB : JSNum
  recC : JSNum

/-- `drawELDLog(canvas, dayData, info)` as a pure rendering function
(`measure` abstracts the canvas font metrics). -/
def drawELDLog (d : DayData) (info : HeaderFields) (measure : String → ℚ) : ELDRender :=
  { header := info
    totalsCol := rowTotals d
    lines := (activityDraw (validSegs d.timeline) none).1
    connectors := (activityDraw (validSegs d.timeline) none).2
    remarks := remarksDraw measure (noteSegs d.timeline) 16 330
    recA := recapA d
    recB := recapB d
    recC := recapC d }

/- ──────────────────────────────────────────────────────────────────────
   TripSummary.jsx — cycle hours remaining
   ────────────────────────────────────────────────────────────────────── -/

/-- `schedule.days.reduce((sum, d) => sum + d.totals.driving + d.totals.on_duty, 0)`. -/
def totalOnDuty (days : List DayData) : JSNum :=
  days.foldl (fun sum d => jsAdd (jsAdd sum (d.totals "driving")) (d.totals "on_duty")) (some 0)

/-- `Math.max(0, 70 - stats.cycle_used_start - totalOnDuty)` from
`TripSummary.jsx` (numeric value before `.toFixed(1)`). -/
def cycleRemaining (days : List DayData) (cycleUsedStart : ℚ) : JSNum :=
  jsMax0 (jsSub (jsSub (some 70) (some cycleUsedStart)) (totalOnDuty days))

/-- The per-day on-duty contribution when both totals are present. -/
def dayOnDuty (d : DayData) : ℚ :=
  (d.totals "driving").getD 0 + (d.totals "on_duty").getD 0

/- ──────────────────────────────────────────────────────────────────────
   App.js — plan-trip request outcome handling
   ────────────────────────────────────────────────────────────────────── -/

/-- The possible outcomes of the `axios.post` call in `handlePlanTrip`,
parameterised by the payload type of a successful response:
* `ok`       — HTTP success with `success: true`;
* `apiFail`  — HTTP success but `success: false` (`errField` is
  `data.error`, `none` when absent);
* `reqFail`  — the request itself threw (`respErr` is
  `err.response?.data?.error`, `msg` is `err.message`). -/
inductive PlanOutcome (α : Type) where
  | ok (data : α)
  | apiFail (errField : Option String)
  | reqFail (respErr : Option String) (msg : Option String)

/-- The App state touched by `handlePlanTrip` (after `finally`:
`loading` is false, `loadMsg` cleared). -/
structure AppState (α : Type) where
  error : String
  tripData : Option α

/-- `handlePlanTrip` from `App.js`.  On `success: false` the code throws
`new Error(data.error || 'Unknown error')`; that error has no `response`,
so the catch shows `err.message` (falling back to `'Request failed.'`
if even that is empty).  On a request failure the catch shows
`err.response?.data?.error || err.message || 'Request failed.'`. -/
def handlePlanTrip {α : Type} : PlanOutcome α → AppState α
  | .ok data => { error := "", tripData := some data }
  | .apiFail errField =>
    { error := jsOrStr (some (jsOrStr errField "Unknown error")) "Request failed."
      tripData := none }
  | .reqFail respErr msg =>
    { error := jsOrStr respErr (jsOrStr msg "Request failed."), tripData := none }

/-- The JSX gate `{tripData && !loading && (... RouteMap, TripSummary,
ELDLogs ...)}`: results render exactly when `tripData` is non-null. -/
def rendersResults {α : Type} (st : AppState α) : Bool :=
  st.tripData.isSome

/-- The server-supplied error text of a failed outcome, when one exists. -/
def serverError {α : Type} : PlanOutcome α → Option String
  | .ok _ => none
  | .apiFail errField => errField
  | .reqFail respErr _ => respErr

/-- Whether the planning outcome failed. -/
def planFailed {α : Type} : PlanOutcome α → Bool
  | .ok _ => false
  | _ => true

/- ──────────────────────────────────────────────────────────────────────
   HOS scheduling engine (backend `hos_calculator.py`, not in the visible
   sources) — modelled from the spec
   ────────────────────────────────────────────────────────────────────── -/

/-- Modelled from the spec: the engine's `TripInput` (§3) — the backend
`hos_calculator.py` is not among the visible sources.  Average speed is the
constant 55 mph; pickup and dropoff each take the fixed 1.0 hour. -/
structure TripInput where
  distance_mi : ℚ
  cycle_hours_used : ℚ
deriving DecidableEq

/-- Modelled from the spec: the closed `DutyStatus` enumeration (§3). -/
inductive DutyStatus where
  | off_duty
  | sleeper
  | driving
  | on_duty
deriving DecidableEq

/-- Modelled from the spec: one duty segment of the emitted stream,
represented by status, duration in hours and note (absolute start hours
are the prefix sums of the durations). -/
structure Seg where
  status : DutyStatus
  dur : ℚ
  note : String
deriving DecidableEq

/-- Modelled from the spec: the `DutyClock` state (§4.1) threaded through
the simulation, plus the remaining trip distance. -/
structure EngState where
  drivingShift : ℚ
  dutyWindow : ℚ
  sinceBreak : ℚ
  milesSinceFuel : ℚ
  remaining : ℚ
  cycleUsed : ℚ
deriving DecidableEq

/-- Modelled from the spec: the error taxonomy (§7) relevant to `plan`
(`outOfFuel` is an artifact of the explicit recursion bound, reported
instead of looping). -/
inductive PlanError where
  | invalidInput
  | cycleExceeded
  | outOfFuel
deriving DecidableEq

/-- Modelled from the spec: the constant assumed average speed (55 mph). -/
def avgSpeed : ℚ := 55

/-- Modelled from the spec: hours-to-threshold minimum of §4.2 step 5 —
the lesser of remaining-distance time, the 8-hour break trigger, the
1000-mile fuel trigger, the 11-hour drive limit and the 14-hour window. -/
def thresholds (st : EngState) : ℚ :=
  min (st.remaining / avgSpeed)
    (min (8 - st.sinceBreak)
      (min ((1000 - st.milesSinceFuel) / avgSpeed)
        (min (11 - st.drivingShift) (14 - st.dutyWindow))))

/-- Modelled from the spec: the next driving-segment length — the binding
threshold, clamped at zero (a trigger that is already due produces no
driving time, only its insertion). -/
def stepT (st : EngState) : ℚ := max 0 (thresholds st)

/-- Modelled from the spec: clock advance over one driving segment
(`advance_driving` of §4.1). -/
def afterDrive (st : EngState) : EngState :=
  { drivingShift := st.drivingShift + stepT st
    dutyWindow := st.dutyWindow + stepT st
    sinceBreak := st.sinceBreak + stepT st
    milesSinceFuel := st.milesSinceFuel + stepT st * avgSpeed
    remaining := st.remaining - stepT st * avgSpeed
    cycleUsed := st.cycleUsed + stepT st }

/-- Modelled from the spec: the 30-minute break (§4.2 step 2) — resets the
break clock, consumes half an hour of the duty window. -/
def resetBreak (st : EngState) : EngState :=
  { st with sinceBreak := 0, dutyWindow := st.dutyWindow + 1 / 2 }

/-- Modelled from the spec: a fuel stop (§4.2 step 3) — a waypoint only,
resets mileage-since-fuel and consumes no schedule hours. -/
def resetFuel (st : EngState) : EngState :=
  { st with milesSinceFuel := 0 }

/-- Modelled from the spec: the 10-hour off-duty shift reset (§4.2 step 4)
— zeroes the shift clocks (`advance_off_duty` reaching ≥ 10 h, §4.1). -/
def resetShift (st : EngState) : EngState :=
  { st with drivingShift := 0, dutyWindow := 0, sinceBreak := 0 }

/-- Modelled from the spec: the emitted driving segment of one step
(omitted when the binding trigger is already due and no time passes). -/
def droveSegs (st : EngState) : List Seg :=
  if 0 < stepT st then [⟨.driving, stepT st, ""⟩] else []

/-- Modelled from the spec: the inserted 30-minute break segment. -/
def breakSeg : Seg := ⟨.off_duty, 1 / 2, "30-min break"⟩

/-- Modelled from the spec: the inserted 10-hour off-duty reset segment. -/
def offSeg : Seg := ⟨.off_duty, 10, "10-hr reset"⟩

/-- Modelled from the spec: the simulation loop of §4.2.  Per step: stop
when no distance remains; otherwise drive until the binding threshold,
check the 70-hour cycle budget (driving and on-duty time only), then fire
the due trigger with the tie-break priority break > fuel > shift-end.
`fuel` bounds the recursion; exhausting it reports `outOfFuel`.
Returns the emitted segments and the final clock. -/
def runEngine : ℕ → EngState → Except PlanError (List Seg × EngState)
  | 0, _ => .error .outOfFuel
  | fuel + 1, st =>
    if st.remaining ≤ 0 then .ok ([], st)
    else if 70 < st.cycleUsed + stepT st then .error .cycleExceeded
    else if (afterDrive st).remaining ≤ 0 then .ok (droveSegs st, afterDrive st)
    else if 8 - st.sinceBreak ≤ stepT st then
      match runEngine fuel (resetBreak (afterDrive st)) with
      | .error e => .error e
      | .ok (segs, stF) => .ok (droveSegs st ++ breakSeg :: segs, stF)
    else if (1000 - st.milesSinceFuel) / avgSpeed ≤ stepT st then
      match runEngine fuel (resetFuel (afterDrive st)) with
      | .error e => .error e
      | .ok (segs, stF) => .ok (droveSegs st ++ segs, stF)
    else
      match runEngine fuel (resetShift (afterDrive st)) with
      | .error e => .error e
      | .ok (segs, stF) => .ok (droveSegs st ++ offSeg :: segs, stF)

/-- Modelled from the spec: the clock right after the mandatory 1-hour
on-duty "Pickup" segment that precedes all driving (§4.2). -/
def initState (input : TripInput) : EngState :=
  { drivingShift := 0
    dutyWindow := 1
    sinceBreak := 0
    milesSinceFuel := 0
    remaining := input.distance_mi
    cycleUsed := input.cycle_hours_used + 1 }

/-- Modelled from the spec: `plan(tripInput) -> ScheduleResult | Error`
(§2, §4.2), emitting the ordered duty-segment stream.  Input validation
(§7 InvalidInput), the pickup/dropoff bookends, and the forced shift reset
when the dropoff hour would overflow the 14-hour window are as specified.
`fuel` bounds the simulation loop. -/
def plan (fuel : ℕ) (input : TripInput) : Except PlanError (List Seg) :=
  if input.distance_mi ≤ 0 ∨ input.cycle_hours_used < 0 ∨ 70 < input.cycle_hours_used then
    .error .invalidInput
  else if 70 < input.cycle_hours_used + 1 then .error .cycleExceeded
  else
    match runEngine fuel (initState input) with
    | .error e => .error e
    | .ok (segs, stF) =>
      if 70 < stF.cycleUsed + 1 then .error .cycleExceeded
      else if 14 < stF.dutyWindow + 1 then
        .ok (⟨.on_duty, 1, "Pickup"⟩ :: segs ++ [offSeg, ⟨.on_duty, 1, "Dropoff"⟩])
      else
        .ok (⟨.on_duty, 1, "Pickup"⟩ :: segs ++ [⟨.on_duty, 1, "Dropoff"⟩])

/-- Splits the emitted segment stream into shifts — maximal runs bounded by
off-duty/sleeper blocks of ≥ 10 hours (§3 invariant 2, glossary) — and
returns each shift's total driving hours.  `acc` is the driving already
accumulated in the open shift. -/
def shiftGo (acc : ℚ) : List Seg → List ℚ
  | [] => [acc]
  | s :: rest =>
    if s.status = .driving then shiftGo (acc + s.dur) rest
    else if (s.status = .off_duty ∨ s.status = .sleeper) ∧ 10 ≤ s.dur then
      acc :: shiftGo 0 rest
    else shiftGo acc rest

/-- Driving already accumulated in the shift left open after the stream. -/
def accAfter (acc : ℚ) : List Seg → ℚ
  | [] => acc
  | s :: rest =>
    if s.status = .driving then accAfter (acc + s.dur) rest
    else if (s.status = .off_duty ∨ s.status = .sleeper) ∧ 10 ≤ s.dur then
      accAfter 0 rest
    else accAfter acc rest

/-- Per-shift driving totals of a segment stream. -/
def shiftDrivingSums (segs : List Seg) : List ℚ := shiftGo 0 segs

/- ──────────────────────────────────────────────────────────────────────
   Theorems
   ────────────────────────────────────────────────────────────────────── -/

theorem validate_eq_nil_iff (v : FormValues) :
    validate v = [] ↔
      (v.current_location.trim ≠ "" ∧ v.pickup_location.trim ≠ "" ∧
       v.dropoff_location.trim ≠ "" ∧
       ∃ x, v.cycle_hours_used = some x ∧ 0 ≤ x ∧ x ≤ 70) := by
  constructor
  · intro hnil
    by_cases h1 : v.current_location.trim = ""
    · simp [validate, h1] at hnil
    by_cases h2 : v.pickup_location.trim = ""
    · simp [validate, h2] at hnil
    by_cases h3 : v.dropoff_location.trim = ""
    · simp [validate, h3] at hnil
    refine ⟨h1, h2, h3, ?_⟩
    cases h4 : v.cycle_hours_used with
    | none => simp [validate, h1, h2, h3, h4] at hnil
    | some c =>
      by_cases h5 : c < 0 ∨ 70 < c
      · simp [validate, h1, h2, h3, h4, h5] at hnil
      · push_neg at h5
        exact ⟨c, rfl, h5.1, h5.2⟩
  · rintro ⟨h1, h2, h3, x, hx, hx0, hx70⟩
    have h5 : ¬ (x < 0 ∨ 70 < x) := by push_neg; exact ⟨hx0, hx70⟩
    simp [validate, h1, h2, h3, hx, h5]

/-- Claim C1: for every form submission, the trip request is sent
(`onSubmit` called) iff all three location fields are non-empty after
trimming and the parsed cycle hours `x` satisfy `0 ≤ x ≤ 70`; an input of
71 is rejected before any request with the field error "Must be 0–70 hrs",
and the boundary values 0 and 70 are accepted. -/
theorem C1_submission_gate :
    (∀ v : FormValues, (handleSubmit v).isSome = true ↔
      (v.current_location.trim ≠ "" ∧ v.pickup_location.trim ≠ "" ∧
       v.dropoff_location.trim ≠ "" ∧
       ∃ x, v.cycle_hours_used = some x ∧ 0 ≤ x ∧ x ≤ 70)) ∧
    (∀ v : FormValues, v.cycle_hours_used = some 71 →
      handleSubmit v = none ∧
      ("cycle_hours_used", "Must be 0–70 hrs") ∈ validate v) ∧
    (∀ v : FormValues, v.current_location.trim ≠ "" → v.pickup_location.trim ≠ "" →
      v.dropoff_location.trim ≠ "" →
      (v.cycle_hours_used = some 0 ∨ v.cycle_hours_used = some 70) →
      (handleSubmit v).isSome = true) := by
  have main : ∀ v : FormValues, (handleSubmit v).isSome = true ↔
      (v.current_location.trim ≠ "" ∧ v.pickup_location.trim ≠ "" ∧
       v.dropoff_location.trim ≠ "" ∧
       ∃ x, v.cycle_hours_used = some x ∧ 0 ≤ x ∧ x ≤ 70) := by
    intro v
    unfold handleSubmit
    by_cases hv : validate v = []
    · rw [if_pos hv]
      rw [validate_eq_nil_iff] at hv
      obtain ⟨h1, h2, h3, x, hx, hx0, hx70⟩ := hv
      simp [hx]
      exact ⟨h1, h2, h3, hx0, hx70⟩
    · rw [if_neg hv]
      simp only [Option.isSome_none, Bool.false_eq_true, false_iff]
      intro hcontra
      exact hv ((validate_eq_nil_iff v).mpr hcontra)
  refine ⟨main, ?_, ?_⟩
  · intro v h71
    constructor
    · unfold handleSubmit
      rw [if_neg]
      intro hnil
      rw [validate_eq_nil_iff] at hnil
      obtain ⟨-, -, -, x, hx, -, hx70⟩ := hnil
      rw [h71] at hx
      have : (71 : ℚ) = x := by injection hx
      rw [← this] at hx70
      norm_num at hx70
    · unfold validate
      rw [h71]
      have h5 : (71 : ℚ) < 0 ∨ (70 : ℚ) < 71 := by norm_num
      simp [h5]
  · intro v h1 h2 h3 hc
    rw [main v]
    rcases hc with hc | hc
    · exact ⟨h1, h2, h3, 0, hc, le_refl 0, by norm_num⟩
    · exact ⟨h1, h2, h3, 70, hc, by norm_num, le_refl 70⟩

theorem C1_submission_gate_witness :
    handleSubmit ⟨"Chicago, IL", "St. Louis, MO", "Dallas, TX", some 71, "John Doe", "ACME Trucking Co."⟩ = none ∧
    ("cycle_hours_used", "Must be 0–70 hrs") ∈
      validate ⟨"Chicago, IL", "St. Louis, MO", "Dallas, TX", some 71, "John Doe", "ACME Trucking Co."⟩ :=
  C1_submission_gate.2.1 ⟨"Chicago, IL", "St. Louis, MO", "Dallas, TX", some 71, "John Doe", "ACME Trucking Co."⟩ rfl

/-- Claim C10 (counterexample): at `hour = 0.995` (a valid hour-of-day),
`fmtHr` yields minute component 60 — outside the claimed range [0, 59] —
rendering the string "12:60 AM". -/
theorem C10_counterexample :
    (0 : ℚ) ≤ 199 / 200 ∧ (199 / 200 : ℚ) < 24 ∧
    (fmtHrParts (199 / 200)).2.1 = 60 ∧
    ¬ (fmtHrParts (199 / 200)).2.1 ≤ 59 ∧
    fmtHr (199 / 200) = "12:60 AM" := by
  refine ⟨by norm_num, by norm_num, ?_, ?_, ?_⟩
  · with_unfolding_all rfl
  · have h : (fmtHrParts (199 / 200)).2.1 = 60 := by with_unfolding_all rfl
    rw [h]
    norm_num
  · with_unfolding_all rfl

/-- Claim C10 (amended): for `0 ≤ t < 24`, `fmtHr`'s hour component is
`⌊t⌋` mapped by 0→12, 1..12→itself, 13..23→`⌊t⌋−12`; the period is AM iff
`⌊t⌋ < 12`; the minute component is `⌊60·(t−⌊t⌋) + 1/2⌋` (JS round) and
lies in [0, 60] — it can equal 60 (not 59 as claimed) when the fractional
part of `t` is at least 59.5/60. -/
theorem C10_fmtHr_amended (t : ℚ) (h0 : 0 ≤ t) (h24 : t < 24) :
    (⌊t⌋ = 0 → (fmtHrParts t).1 = 12) ∧
    (1 ≤ ⌊t⌋ → ⌊t⌋ ≤ 12 → (fmtHrParts t).1 = ⌊t⌋) ∧
    (13 ≤ ⌊t⌋ → (fmtHrParts t).1 = ⌊t⌋ - 12) ∧
    ((fmtHrParts t).2.2 = "AM" ↔ ⌊t⌋ < 12) ∧
    (fmtHrParts t).2.1 = ⌊(t - ⌊t⌋) * 60 + 1 / 2⌋ ∧
    0 ≤ (fmtHrParts t).2.1 ∧ (fmtHrParts t).2.1 ≤ 60 := by
  have hparts : fmtHrParts t =
      ((if ⌊t⌋ = 0 then 12 else if 12 < ⌊t⌋ then ⌊t⌋ - 12 else ⌊t⌋ : ℤ),
       ⌊(t - ⌊t⌋) * 60 + 1 / 2⌋,
       (if ⌊t⌋ < 12 then "AM" else "PM")) := rfl
  rw [hparts]
  have hfr0 : (0 : ℚ) ≤ t - ⌊t⌋ := by
    have := Int.floor_le t
    linarith
  have hfr1 : t - ⌊t⌋ < 1 := by
    have := Int.lt_floor_add_one t
    linarith
  refine ⟨?_, ?_, ?_, ?_, rfl, ?_, ?_⟩
  · intro h; simp [h]
  · intro ha hb
    have hne : ⌊t⌋ ≠ 0 := by omega
    have hnot : ¬ (12 < ⌊t⌋) := by omega
    simp [hne, hnot]
  · intro ha
    have hne : ⌊t⌋ ≠ 0 := by omega
    have hlt : 12 < ⌊t⌋ := by omega
    simp [hne, hlt]
  · by_cases hlt : ⌊t⌋ < 12
    · simp [hlt]
    · simp [hlt]
  · simp only
    apply Int.floor_nonneg.mpr
    nlinarith
  · simp only
    have hlt : (t - ⌊t⌋) * 60 + 1 / 2 < (61 : ℚ) := by nlinarith
    have : ⌊(t - ⌊t⌋) * 60 + 1 / 2⌋ < (61 : ℤ) := Int.floor_lt.mpr (by exact_mod_cast hlt)
    omega

theorem C10_fmtHr_amended_witness :
    (⌊(1 / 2 : ℚ)⌋ = 0 → (fmtHrParts (1 / 2)).1 = 12) ∧
    (1 ≤ ⌊(1 / 2 : ℚ)⌋ → ⌊(1 / 2 : ℚ)⌋ ≤ 12 → (fmtHrParts (1 / 2)).1 = ⌊(1 / 2 : ℚ)⌋) ∧
    (13 ≤ ⌊(1 / 2 : ℚ)⌋ → (fmtHrParts (1 / 2)).1 = ⌊(1 / 2 : ℚ)⌋ - 12) ∧
    ((fmtHrParts (1 / 2)).2.2 = "AM" ↔ ⌊(1 / 2 : ℚ)⌋ < 12) ∧
    (fmtHrParts (1 / 2)).2.1 = ⌊((1 / 2 : ℚ) - ⌊(1 / 2 : ℚ)⌋) * 60 + 1 / 2⌋ ∧
    0 ≤ (fmtHrParts (1 / 2)).2.1 ∧ (fmtHrParts (1 / 2)).2.1 ≤ 60 :=
  C10_fmtHr_amended (1 / 2) (by norm_num) (by norm_num)

/-- Claim C2 (counterexample): a rest stop having exactly the §6 contract
fields {day, time_str} carries no `miles_in`, yet `RouteMap` reads
`rs.miles_in`; the resulting polyline index is NaN (`none`) and the marker
position is undefined even on a non-empty geometry — refuting that a
contract-conforming rest stop always yields a well-defined, in-bounds
position. -/
theorem C2_counterexample :
    stopMarkerIdx none 855 2 = none ∧
    markerPoint [(39, -90), (33, -97)] (stopMarkerIdx none 855 2) = none :=
  ⟨rfl, rfl⟩

/-- Claim C2 (amended): the rest-stop marker computation reads the
`miles_in` field, which is outside the §6 rest-stop contract
`{day, time_str}` (though §3's RestStop does carry it); for a rest-stop
record that carries `miles_in ≥ 0` and a non-empty geometry, the computed
polyline index is well-defined and in-bounds. -/
theorem C2_rest_marker_amended (m totalMiles : ℚ) (pts : ℕ)
    (hm : 0 ≤ m) (hpts : 1 ≤ pts) :
    ∃ k : ℤ, stopMarkerIdx (some m) totalMiles pts = some k ∧ 0 ≤ k ∧ k < (pts : ℤ) ∧
      ∀ geometry : List (ℚ × ℚ), geometry.length = pts →
        (markerPoint geometry (stopMarkerIdx (some m) totalMiles pts)).isSome = true := by
  have hk0 : (0 : ℤ) ≤ min ⌊m / max totalMiles 1 * (pts : ℚ)⌋ ((pts : ℤ) - 1) := by
    apply le_min
    · apply Int.floor_nonneg.mpr
      apply mul_nonneg
      · apply div_nonneg hm
        exact le_trans zero_le_one (le_max_right totalMiles 1)
      · exact_mod_cast Nat.zero_le pts
    · omega
  have hklt : min ⌊m / max totalMiles 1 * (pts : ℚ)⌋ ((pts : ℤ) - 1) < (pts : ℤ) := by
    calc min ⌊m / max totalMiles 1 * (pts : ℚ)⌋ ((pts : ℤ) - 1) ≤ (pts : ℤ) - 1 :=
        min_le_right _ _
      _ < (pts : ℤ) := by omega
  refine ⟨min ⌊m / max totalMiles 1 * (pts : ℚ)⌋ ((pts : ℤ) - 1), rfl, hk0, hklt, ?_⟩
  intro geometry hlen
  have hmp : markerPoint geometry (stopMarkerIdx (some m) totalMiles pts) =
      if 0 ≤ min ⌊m / max totalMiles 1 * (pts : ℚ)⌋ ((pts : ℤ) - 1) then
        geometry.get? (min ⌊m / max totalMiles 1 * (pts : ℚ)⌋ ((pts : ℤ) - 1)).toNat
      else none := rfl
  rw [hmp, if_pos hk0, Option.isSome_iff_ne_none]
  intro hnone
  rw [List.get?_eq_none] at hnone
  rw [hlen] at hnone
  omega

theorem C2_rest_marker_amended_witness :
    ∃ k : ℤ, stopMarkerIdx (some 100) 855 2 = some k ∧ 0 ≤ k ∧ k < ((2 : ℕ) : ℤ) ∧
      ∀ geometry : List (ℚ × ℚ), geometry.length = 2 →
        (markerPoint geometry (stopMarkerIdx (some 100) 855 2)).isSome = true :=
  C2_rest_marker_amended 100 855 2 (by norm_num) (by norm_num)

/-- Claim C4: whenever the plan-trip request fails or the response carries
`success: false`, the app shows the server-supplied error message (generic
fallback only when none is provided), `tripData` stays null, and no
schedule/map/log output is rendered — errors never coexist with a partial
result. -/
theorem C4_failed_outcome_isolation {α : Type} (o : PlanOutcome α)
    (hf : planFailed o = true) :
    (handlePlanTrip o).tripData = none ∧
    rendersResults (handlePlanTrip o) = false ∧
    (handlePlanTrip o).error ≠ "" ∧
    (∀ e : String, serverError o = some e → e ≠ "" → (handlePlanTrip o).error = e) := by
  cases o with
  | ok d => simp [planFailed] at hf
  | apiFail errField =>
    refine ⟨rfl, rfl, ?_, ?_⟩
    · cases errField with
      | none => simp [handlePlanTrip, jsOrStr]
      | some e =>
        by_cases he : e = "" <;> simp [handlePlanTrip, jsOrStr, he]
    · intro e he hne
      cases errField with
      | none => exact absurd he (by simp [serverError])
      | some e' =>
        have : e' = e := by simpa [serverError] using he
        subst this
        simp [handlePlanTrip, jsOrStr, hne]
  | reqFail respErr msg =>
    refine ⟨rfl, rfl, ?_, ?_⟩
    · cases respErr with
      | none =>
        cases msg with
        | none => simp [handlePlanTrip, jsOrStr]
        | some s => by_cases hs : s = "" <;> simp [handlePlanTrip, jsOrStr, hs]
      | some e =>
        by_cases he : e = ""
        · cases msg with
          | none => simp [handlePlanTrip, jsOrStr, he]
          | some s => by_cases hs : s = "" <;> simp [handlePlanTrip, jsOrStr, he, hs]
        · simp [handlePlanTrip, jsOrStr, he]
    · intro e he hne
      have : respErr = some e := by simpa [serverError] using he
      subst this
      simp [handlePlanTrip, jsOrStr, hne]

theorem C4_failed_outcome_isolation_witness :
    (handlePlanTrip (PlanOutcome.apiFail (α := Unit) (some "Trip exceeds the 70-hour cycle limit"))).tripData = none ∧
    rendersResults (handlePlanTrip (PlanOutcome.apiFail (α := Unit) (some "Trip exceeds the 70-hour cycle limit"))) = false ∧
    (handlePlanTrip (PlanOutcome.apiFail (α := Unit) (some "Trip exceeds the 70-hour cycle limit"))).error =
      "Trip exceeds the 70-hour cycle limit" :=
  ⟨(C4_failed_outcome_isolation (PlanOutcome.apiFail (some "Trip exceeds the 70-hour cycle limit")) rfl).1,
   (C4_failed_outcome_isolation (PlanOutcome.apiFail (some "Trip exceeds the 70-hour cycle limit")) rfl).2.1,
   (C4_failed_outcome_isolation (PlanOutcome.apiFail (some "Trip exceeds the 70-hour cycle limit")) rfl).2.2.2
     "Trip exceeds the 70-hour cycle limit" rfl (by simp)⟩

theorem totalOnDuty_foldl (days : List DayData)
    (h : ∀ d ∈ days, (d.totals "driving").isSome = true ∧ (d.totals "on_duty").isSome = true) :
    ∀ a : ℚ,
      days.foldl (fun sum d => jsAdd (jsAdd sum (d.totals "driving")) (d.totals "on_duty")) (some a)
        = some (a + (days.map dayOnDuty).sum) := by
  induction days with
  | nil => intro a; simp
  | cons d rest ih =>
    intro a
    obtain ⟨hd, ho⟩ := h d (List.mem_cons_self d rest)
    obtain ⟨x, hx⟩ := Option.isSome_iff_exists.mp hd
    obtain ⟨y, hy⟩ := Option.isSome_iff_exists.mp ho
    have hrest : ∀ d' ∈ rest, (d'.totals "driving").isSome = true ∧ (d'.totals "on_duty").isSome = true :=
      fun d' hd' => h d' (List.mem_cons_of_mem d hd')
    have hstep : jsAdd (jsAdd (some a) (d.totals "driving")) (d.totals "on_duty")
        = some (a + x + y) := by
      rw [hx, hy]
      rfl
    rw [List.foldl_cons, hstep, ih hrest (a + x + y)]
    simp only [List.map_cons, List.sum_cons, dayOnDuty, hx, hy, Option.getD_some,
      Option.some.injEq]
    ring

/-- Claim C3: the cycle-hours-remaining shown in the trip summary equals
`max(0, 70 − cycle_used_start − Σ days (totals.driving + totals.on_duty))`
— recomputed from the emitted days — and is never negative. -/
theorem C3_cycle_remaining (days : List DayData) (cycleUsedStart : ℚ)
    (h : ∀ d ∈ days, (d.totals "driving").isSome = true ∧ (d.totals "on_duty").isSome = true) :
    cycleRemaining days cycleUsedStart =
      some (max 0 (70 - cycleUsedStart - (days.map dayOnDuty).sum)) ∧
    ∀ q : ℚ, cycleRemaining days cycleUsedStart = some q → 0 ≤ q := by
  have hfold := totalOnDuty_foldl days h 0
  have hrem : cycleRemaining days cycleUsedStart =
      some (max 0 (70 - cycleUsedStart - (days.map dayOnDuty).sum)) := by
    unfold cycleRemaining totalOnDuty
    rw [hfold]
    simp [jsSub, jsMax0]
  refine ⟨hrem, ?_⟩
  intro q hq
  rw [hrem] at hq
  have : max 0 (70 - cycleUsedStart - (days.map dayOnDuty).sum) = q := by
    injection hq
  rw [← this]
  exact le_max_left _ _

theorem C3_cycle_remaining_witness :
    cycleRemaining
      [⟨1, [], (fun k => if k = "driving" then some (11 / 2) else
        if k = "on_duty" then some 2 else none), some 300⟩] 14 =
      some (max 0 (70 - 14 -
        (([⟨1, [], (fun k => if k = "driving" then some (11 / 2) else
          if k = "on_duty" then some 2 else none), some 300⟩] : List DayData).map dayOnDuty).sum)) ∧
    ∀ q : ℚ,
      cycleRemaining
        [⟨1, [], (fun k => if k = "driving" then some (11 / 2) else
          if k = "on_duty" then some 2 else none), some 300⟩] 14 = some q → 0 ≤ q :=
  C3_cycle_remaining
    [⟨1, [], (fun k => if k = "driving" then some (11 / 2) else
      if k = "on_duty" then some 2 else none), some 300⟩] 14
    (by
      intro d hd
      rw [List.mem_singleton] at hd
      subst hd
      exact ⟨rfl, rfl⟩)

/-- Claim C7: the ELD renderer assigns duty statuses to grid rows by the
fixed map off_duty→0, sleeper→1, driving→2, on_duty→3 (every activity line
of a valid segment sits on the row `STATUS_ROW` gives), and for each row
`r` the printed total-hours value is the day's totals entry for the status
of ordinal `r`. -/
theorem C7_row_assignment :
    STATUS_ROW "off_duty" = some 0 ∧ STATUS_ROW "sleeper" = some 1 ∧
    STATUS_ROW "driving" = some 2 ∧ STATUS_ROW "on_duty" = some 3 ∧
    (∀ (s : RawSeg) (r : ℕ), STATUS_ROW s.status = some r → (segLine s).row = r) ∧
    (∀ (d : DayData) (r : ℕ) (k : String) (v : ℚ),
      statusKeys.get? r = some k → d.totals k = some v →
      (rowTotals d).get? r = some v) := by
  refine ⟨rfl, rfl, rfl, rfl, ?_, ?_⟩
  · intro s r hrow
    unfold segLine
    simp [hrow]
  · intro d r k v hk hv
    unfold rowTotals
    rw [List.get?_map, hk]
    simp [hv]

theorem C7_row_assignment_witness :
    (segLine ⟨"driving", 2, 5, none⟩).row = 2 ∧
    (rowTotals ⟨1, [],
      (fun k => if k = "driving" then some (13 / 2) else some 0), some 320⟩).get? 2 =
      some (13 / 2) :=
  ⟨C7_row_assignment.2.2.2.2.1 ⟨"driving", 2, 5, none⟩ 2 rfl,
   C7_row_assignment.2.2.2.2.2
     ⟨1, [], (fun k => if k = "driving" then some (13 / 2) else some 0), some 320⟩
     2 "driving" (13 / 2) rfl rfl⟩

/-- Claim C8: for every rendered day, recap line A = driving + on_duty,
line B = driving, line C = off_duty + sleeper; the day-header pills
aggregate the same four status totals (drive pill = driving, on-duty pill
= on_duty, off-duty pill = off_duty + sleeper). -/
theorem C8_recap_and_pills (d : DayData) (dv ov fv sv : ℚ)
    (hd : d.totals "driving" = some dv) (ho : d.totals "on_duty" = some ov)
    (hf : d.totals "off_duty" = some fv) (hs : d.totals "sleeper" = some sv) :
    recapA d = some (dv + ov) ∧ recapB d = some dv ∧ recapC d = some (fv + sv) ∧
    pillDrive d = some dv ∧ pillOnDuty d = some ov ∧ pillOffDuty d = some (fv + sv) := by
  unfold recapA recapB recapC pillDrive pillOnDuty pillOffDuty
  rw [hd, ho, hf, hs]
  exact ⟨rfl, rfl, rfl, rfl, rfl, rfl⟩

theorem C8_recap_and_pills_witness :
    recapA ⟨2, [],
      (fun k => if k = "off_duty" then some 10 else if k = "sleeper" then some (17 / 2)
        else if k = "driving" then some (9 / 2) else if k = "on_duty" then some 1
        else none), some 248⟩ = some (9 / 2 + 1) ∧
    recapB ⟨2, [],
      (fun k => if k = "off_duty" then some 10 else if k = "sleeper" then some (17 / 2)
        else if k = "driving" then some (9 / 2) else if k = "on_duty" then some 1
        else none), some 248⟩ = some (9 / 2) ∧
    recapC ⟨2, [],
      (fun k => if k = "off_duty" then some 10 else if k = "sleeper" then some (17 / 2)
        else if k = "driving" then some (9 / 2) else if k = "on_duty" then some 1
        else none), some 248⟩ = some (10 + 17 / 2) ∧
    pillDrive ⟨2, [],
      (fun k => if k = "off_duty" then some 10 else if k = "sleeper" then some (17 / 2)
        else if k = "driving" then some (9 / 2) else if k = "on_duty" then some 1
        else none), some 248⟩ = some (9 / 2) ∧
    pillOnDuty ⟨2, [],
      (fun k => if k = "off_duty" then some 10 else if k = "sleeper" then some (17 / 2)
        else if k = "driving" then some (9 / 2) else if k = "on_duty" then some 1
        else none), some 248⟩ = some 1 ∧
    pillOffDuty ⟨2, [],
      (fun k => if k = "off_duty" then some 10 else if k = "sleeper" then some (17 / 2)
        else if k = "driving" then some (9 / 2) else if k = "on_duty" then some 1
        else none), some 248⟩ = some (10 + 17 / 2) :=
  C8_recap_and_pills _ (9 / 2) 1 10 (17 / 2) rfl rfl rfl rfl

/-- Claim C9: `drawELDLog` is total on timelines containing segments whose
status is outside the four duty tags — such segments are filtered out
before drawing, contributing no activity line, no connector, and no
remarks entry (the whole render is unchanged by their presence); and a
totals mapping missing a status key renders that row's total as 0. -/
theorem C9_invalid_status_ignored (pre post : List RawSeg) (s : RawSeg)
    (hbad : STATUS_ROW s.status = none) :
    (∀ (dn : ℕ) (tot : String → Option ℚ) (dm : Option ℚ)
      (info : HeaderFields) (measure : String → ℚ),
      drawELDLog ⟨dn, pre ++ s :: post, tot, dm⟩ info measure =
        drawELDLog ⟨dn, pre ++ post, tot, dm⟩ info measure) ∧
    (∀ (d : DayData) (r : ℕ) (k : String),
      statusKeys.get? r = some k → d.totals k = none →
      (rowTotals d).get? r = some 0) := by
  have hfilter : validSegs (pre ++ s :: post) = validSegs (pre ++ post) := by
    unfold validSegs
    rw [List.filter_append, List.filter_append, List.filter_cons]
    rw [hbad]
    simp
  constructor
  · intro dn tot dm info measure
    unfold drawELDLog
    have htl : (⟨dn, pre ++ s :: post, tot, dm⟩ : DayData).timeline = pre ++ s :: post := rfl
    have htl2 : (⟨dn, pre ++ post, tot, dm⟩ : DayData).timeline = pre ++ post := rfl
    rw [htl, htl2, hfilter]
    have hnote : noteSegs (pre ++ s :: post) = noteSegs (pre ++ post) := by
      unfold noteSegs
      rw [hfilter]
    rw [hnote]
    rfl
  · intro d r k hk hnone
    unfold rowTotals
    rw [List.get?_map, hk]
    simp [hnone]

theorem C9_invalid_status_ignored_witness :
    (drawELDLog ⟨1, [⟨"driving", 1, 2, none⟩] ++ ⟨"lunch", 2, 3, some "Lunch"⟩ ::
        [⟨"on_duty", 3, 4, none⟩], (fun k => none), none⟩
      ⟨"01/01/2026", "Driver", "Carrier", "A", "B", "TRK-1001", 0, 0⟩ (fun lab => 40) =
      drawELDLog ⟨1, [⟨"driving", 1, 2, none⟩] ++ [⟨"on_duty", 3, 4, none⟩],
        (fun k => none), none⟩
      ⟨"01/01/2026", "Driver", "Carrier", "A", "B", "TRK-1001", 0, 0⟩ (fun lab => 40)) ∧
    (rowTotals ⟨1, [], (fun k => none), none⟩).get? 0 = some 0 :=
  ⟨(C9_invalid_status_ignored [⟨"driving", 1, 2, none⟩] [⟨"on_duty", 3, 4, none⟩]
      ⟨"lunch", 2, 3, some "Lunch"⟩ rfl).1 1 (fun k => none) none
      ⟨"01/01/2026", "Driver", "Carrier", "A", "B", "TRK-1001", 0, 0⟩ (fun lab => 40),
   (C9_invalid_status_ignored [⟨"driving", 1, 2, none⟩] [⟨"on_duty", 3, 4, none⟩]
      ⟨"lunch", 2, 3, some "Lunch"⟩ rfl).2 ⟨1, [], (fun k => none), none⟩ 0 "off_duty" rfl rfl⟩

/-- Claim C6: driver/carrier metadata does not influence scheduling or the
drawn duty graph — two form submissions differing only in driver/carrier
produce requests identical in every scheduling-relevant field, and for a
fixed day the ELD canvas's per-row totals, activity lines, connectors and
remarks are identical for any two meta values (meta reaches only header
text fields). -/
theorem C6_meta_noninterference :
    (∀ v₁ v₂ : FormValues,
      v₁.current_location = v₂.current_location →
      v₁.pickup_location = v₂.pickup_location →
      v₁.dropoff_location = v₂.dropoff_location →
      v₁.cycle_hours_used = v₂.cycle_hours_used →
      (handleSubmit v₁).map schedulingFields = (handleSubmit v₂).map schedulingFields) ∧
    (∀ (d : DayData) (dateStr : String) (m₁ m₂ : MetaInfo) (measure : String → ℚ),
      (drawELDLog d (buildInfo d m₁ dateStr) measure).totalsCol =
        (drawELDLog d (buildInfo d m₂ dateStr) measure).totalsCol ∧
      (drawELDLog d (buildInfo d m₁ dateStr) measure).lines =
        (drawELDLog d (buildInfo d m₂ dateStr) measure).lines ∧
      (drawELDLog d (buildInfo d m₁ dateStr) measure).connectors =
        (drawELDLog d (buildInfo d m₂ dateStr) measure).connectors ∧
      (drawELDLog d (buildInfo d m₁ dateStr) measure).remarks =
        (drawELDLog d (buildInfo d m₂ dateStr) measure).remarks ∧
      (drawELDLog d (buildInfo d m₁ dateStr) measure).recA =
        (drawELDLog d (buildInfo d m₂ dateStr) measure).recA) := by
  constructor
  · rintro ⟨c1, p1, dl1, cy1, dr1, ca1⟩ ⟨c2, p2, dl2, cy2, dr2, ca2⟩ h1 h2 h3 h4
    simp only at h1 h2 h3 h4
    subst h1; subst h2; subst h3; subst h4
    have hval : validate ⟨c1, p1, dl1, cy1, dr1, ca1⟩ = validate ⟨c1, p1, dl1, cy1, dr2, ca2⟩ := rfl
    unfold handleSubmit
    rw [hval]
    by_cases hv : validate ⟨c1, p1, dl1, cy1, dr2, ca2⟩ = []
    · rw [if_pos hv, if_pos hv]
      cases cy1 with
      | none => rfl
      | some c => rfl
    · rw [if_neg hv, if_neg hv]
  · intro d dateStr m₁ m₂ measure
    exact ⟨rfl, rfl, rfl, rfl, rfl⟩

theorem C6_meta_noninterference_witness :
    (handleSubmit ⟨"Chicago, IL", "St. Louis, MO", "Dallas, TX", some 14, "John Doe", "ACME Trucking Co."⟩).map
        schedulingFields =
      (handleSubmit ⟨"Chicago, IL", "St. Louis, MO", "Dallas, TX", some 14, "Jane Roe", "Beta Freight"⟩).map
        schedulingFields ∧
    (drawELDLog ⟨1, [⟨"driving", 1, 2, some "Depart"⟩], (fun k => some 6), some 110⟩
        (buildInfo ⟨1, [⟨"driving", 1, 2, some "Depart"⟩], (fun k => some 6), some 110⟩
          ⟨some "John Doe", some "ACME Trucking Co.", some "Chicago, IL", some "Dallas, TX", some 855⟩
          "01/01/2026") (fun lab => 40)).lines =
      (drawELDLog ⟨1, [⟨"driving", 1, 2, some "Depart"⟩], (fun k => some 6), some 110⟩
        (buildInfo ⟨1, [⟨"driving", 1, 2, some "Depart"⟩], (fun k => some 6), some 110⟩
          ⟨some "Jane Roe", some "Beta Freight", some "Springfield, IL", some "Austin, TX", some 99⟩
          "02/02/2026") (fun lab => 40)).lines :=
  ⟨C6_meta_noninterference.1
      ⟨"Chicago, IL", "St. Louis, MO", "Dallas, TX", some 14, "John Doe", "ACME Trucking Co."⟩
      ⟨"Chicago, IL", "St. Louis, MO", "Dallas, TX", some 14, "Jane Roe", "Beta Freight"⟩
      rfl rfl rfl rfl,
   (C6_meta_noninterference.2
      ⟨1, [⟨"driving", 1, 2, some "Depart"⟩], (fun k => some 6), some 110⟩ "01/01/2026"
      ⟨some "John Doe", some "ACME Trucking Co.", some "Chicago, IL", some "Dallas, TX", some 855⟩
      ⟨some "Jane Roe", some "Beta Freight", some "Springfield, IL", some "Austin, TX", some 99⟩
      (fun lab => 40)).2.1⟩

theorem stepT_nonneg (st : EngState) : 0 ≤ stepT st := le_max_left 0 _

theorem afterDrive_drivingShift (st : EngState) :
    (afterDrive st).drivingShift = st.drivingShift + stepT st := rfl

theorem drivingShift_afterDrive_le (st : EngState) (h : st.drivingShift ≤ 11) :
    st.drivingShift + stepT st ≤ 11 := by
  have hmin : thresholds st ≤ 11 - st.drivingShift := by
    unfold thresholds
    exact le_trans (min_le_right _ _)
      (le_trans (min_le_right _ _) (le_trans (min_le_right _ _) (min_le_left _ _)))
  have hT : stepT st ≤ max 0 (11 - st.drivingShift) := max_le_max (le_refl 0) hmin
  rw [max_eq_right (by linarith : (0 : ℚ) ≤ 11 - st.drivingShift)] at hT
  linarith

theorem shiftGo_cons_driving (acc : ℚ) (s : Seg) (rest : List Seg)
    (h : s.status = DutyStatus.driving) :
    shiftGo acc (s :: rest) = shiftGo (acc + s.dur) rest := by
  simp [shiftGo, h]

theorem shiftGo_cons_reset (acc : ℚ) (s : Seg) (rest : List Seg)
    (hnd : ¬ s.status = DutyStatus.driving)
    (h : (s.status = DutyStatus.off_duty ∨ s.status = DutyStatus.sleeper) ∧ 10 ≤ s.dur) :
    shiftGo acc (s :: rest) = acc :: shiftGo 0 rest := by
  simp [shiftGo, hnd, h]

theorem shiftGo_cons_other (acc : ℚ) (s : Seg) (rest : List Seg)
    (hnd : ¬ s.status = DutyStatus.driving)
    (hno : ¬ ((s.status = DutyStatus.off_duty ∨ s.status = DutyStatus.sleeper) ∧ 10 ≤ s.dur)) :
    shiftGo acc (s :: rest) = shiftGo acc rest := by
  simp [shiftGo, hnd, hno]

theorem accAfter_cons_driving (acc : ℚ) (s : Seg) (rest : List Seg)
    (h : s.status = DutyStatus.driving) :
    accAfter acc (s :: rest) = accAfter (acc + s.dur) rest := by
  simp [accAfter, h]

theorem accAfter_cons_reset (acc : ℚ) (s : Seg) (rest : List Seg)
    (hnd : ¬ s.status = DutyStatus.driving)
    (h : (s.status = DutyStatus.off_duty ∨ s.status = DutyStatus.sleeper) ∧ 10 ≤ s.dur) :
    accAfter acc (s :: rest) = accAfter 0 rest := by
  simp [accAfter, hnd, h]

theorem accAfter_cons_other (acc : ℚ) (s : Seg) (rest : List Seg)
    (hnd : ¬ s.status = DutyStatus.driving)
    (hno : ¬ ((s.status = DutyStatus.off_duty ∨ s.status = DutyStatus.sleeper) ∧ 10 ≤ s.dur)) :
    accAfter acc (s :: rest) = accAfter acc rest := by
  simp [accAfter, hnd, hno]

theorem shiftGo_droveSegs (st : EngState) (acc : ℚ) (rest : List Seg) :
    shiftGo acc (droveSegs st ++ rest) = shiftGo (acc + stepT st) rest := by
  unfold droveSegs
  by_cases h : 0 < stepT st
  · rw [if_pos h, List.cons_append, List.nil_append,
      shiftGo_cons_driving acc ⟨DutyStatus.driving, stepT st, ""⟩ rest rfl]
  · rw [if_neg h, List.nil_append]
    have hz : stepT st = 0 := le_antisymm (not_lt.mp h) (stepT_nonneg st)
    rw [hz, add_zero]

theorem accAfter_droveSegs (st : EngState) (acc : ℚ) (rest : List Seg) :
    accAfter acc (droveSegs st ++ rest) = accAfter (acc + stepT st) rest := by
  unfold droveSegs
  by_cases h : 0 < stepT st
  · rw [if_pos h, List.cons_append, List.nil_append,
      accAfter_cons_driving acc ⟨DutyStatus.driving, stepT st, ""⟩ rest rfl]
  · rw [if_neg h, List.nil_append]
    have hz : stepT st = 0 := le_antisymm (not_lt.mp h) (stepT_nonneg st)
    rw [hz, add_zero]

theorem shiftGo_breakSeg (acc : ℚ) (rest : List Seg) :
    shiftGo acc (breakSeg :: rest) = shiftGo acc rest := by
  apply shiftGo_cons_other
  · simp [breakSeg]
  · norm_num [breakSeg]

theorem accAfter_breakSeg (acc : ℚ) (rest : List Seg) :
    accAfter acc (breakSeg :: rest) = accAfter acc rest := by
  apply accAfter_cons_other
  · simp [breakSeg]
  · norm_num [breakSeg]

theorem shiftGo_offSeg (acc : ℚ) (rest : List Seg) :
    shiftGo acc (offSeg :: rest) = acc :: shiftGo 0 rest := by
  apply shiftGo_cons_reset
  · simp [offSeg]
  · norm_num [offSeg]

theorem accAfter_offSeg (acc : ℚ) (rest : List Seg) :
    accAfter acc (offSeg :: rest) = accAfter 0 rest := by
  apply accAfter_cons_reset
  · simp [offSeg]
  · norm_num [offSeg]

theorem shiftGo_ne_nil (l : List Seg) : ∀ acc : ℚ, shiftGo acc l ≠ [] := by
  induction l with
  | nil => intro acc; simp [shiftGo]
  | cons s rest ih =>
    intro acc
    by_cases h1 : s.status = DutyStatus.driving
    · rw [shiftGo_cons_driving acc s rest h1]
      exact ih _
    by_cases h2 : (s.status = DutyStatus.off_duty ∨ s.status = DutyStatus.sleeper) ∧ 10 ≤ s.dur
    · rw [shiftGo_cons_reset acc s rest h1 h2]
      simp
    · rw [shiftGo_cons_other acc s rest h1 h2]
      exact ih _

theorem shiftGo_append (l : List Seg) :
    ∀ (r : List Seg) (acc : ℚ),
      shiftGo acc (l ++ r) = (shiftGo acc l).dropLast ++ shiftGo (accAfter acc l) r := by
  induction l with
  | nil => intro r acc; simp [shiftGo, accAfter]
  | cons s rest ih =>
    intro r acc
    by_cases h1 : s.status = DutyStatus.driving
    · rw [List.cons_append, shiftGo_cons_driving _ s _ h1, shiftGo_cons_driving _ s _ h1,
        accAfter_cons_driving _ s _ h1, ih]
    by_cases h2 : (s.status = DutyStatus.off_duty ∨ s.status = DutyStatus.sleeper) ∧ 10 ≤ s.dur
    · rw [List.cons_append, shiftGo_cons_reset _ s _ h1 h2, shiftGo_cons_reset _ s _ h1 h2,
        accAfter_cons_reset _ s _ h1 h2, ih]
      obtain ⟨c, cs, hc⟩ := List.exists_cons_of_ne_nil (shiftGo_ne_nil rest 0)
      rw [hc]
      simp
    · rw [List.cons_append, shiftGo_cons_other _ s _ h1 h2, shiftGo_cons_other _ s _ h1 h2,
        accAfter_cons_other _ s _ h1 h2, ih]

theorem runEngine_shift_invariant :
    ∀ (fuel : ℕ) (st : EngState) (segs : List Seg) (stF : EngState),
      runEngine fuel st = .ok (segs, stF) → st.drivingShift ≤ 11 →
      (∀ x ∈ shiftGo st.drivingShift segs, x ≤ 11) ∧
      accAfter st.drivingShift segs = stF.drivingShift ∧ stF.drivingShift ≤ 11 := by
  intro fuel
  induction fuel with
  | zero =>
    intro st segs stF h
    simp [runEngine] at h
  | succ n ih =>
    intro st segs stF h hds
    rw [runEngine] at h
    split at h
    · simp only [Except.ok.injEq, Prod.mk.injEq] at h
      obtain ⟨h1, h2⟩ := h
      subst h1
      subst h2
      refine ⟨?_, rfl, hds⟩
      intro x hx
      simp only [shiftGo, List.mem_singleton] at hx
      rw [hx]
      exact hds
    split at h
    · exact absurd h (by simp)
    split at h
    · simp only [Except.ok.injEq, Prod.mk.injEq] at h
      obtain ⟨h1, h2⟩ := h
      subst h1
      subst h2
      have hbound := drivingShift_afterDrive_le st hds
      refine ⟨?_, ?_, ?_⟩
      · intro x hx
        rw [← List.append_nil (droveSegs st), shiftGo_droveSegs] at hx
        simp only [shiftGo, List.mem_singleton] at hx
        rw [hx]
        exact hbound
      · rw [← List.append_nil (droveSegs st), accAfter_droveSegs]
        rfl
      · exact hbound
    split at h
    · -- 30-minute break branch
      split at h
      · exact absurd h (by simp)
      · rename_i segs' stF' heq
        simp only [Except.ok.injEq, Prod.mk.injEq] at h
        obtain ⟨h1, h2⟩ := h
        subst h1
        subst h2
        have hds' : (resetBreak (afterDrive st)).drivingShift ≤ 11 := by
          have : (resetBreak (afterDrive st)).drivingShift = st.drivingShift + stepT st := rfl
          rw [this]
          exact drivingShift_afterDrive_le st hds
        obtain ⟨hall, hacc, hF⟩ := ih (resetBreak (afterDrive st)) segs' stF' heq hds'
        have hrw : (resetBreak (afterDrive st)).drivingShift = st.drivingShift + stepT st := rfl
        rw [hrw] at hall hacc
        refine ⟨?_, ?_, hF⟩
        · intro x hx
          rw [shiftGo_droveSegs, shiftGo_breakSeg] at hx
          exact hall x hx
        · rw [accAfter_droveSegs, accAfter_breakSeg]
          exact hacc
    split at h
    · -- fuel-stop branch
      split at h
      · exact absurd h (by simp)
      · rename_i segs' stF' heq
        simp only [Except.ok.injEq, Prod.mk.injEq] at h
        obtain ⟨h1, h2⟩ := h
        subst h1
        subst h2
        have hds' : (resetFuel (afterDrive st)).drivingShift ≤ 11 := by
          have : (resetFuel (afterDrive st)).drivingShift = st.drivingShift + stepT st := rfl
          rw [this]
          exact drivingShift_afterDrive_le st hds
        obtain ⟨hall, hacc, hF⟩ := ih (resetFuel (afterDrive st)) segs' stF' heq hds'
        have hrw : (resetFuel (afterDrive st)).drivingShift = st.drivingShift + stepT st := rfl
        rw [hrw] at hall hacc
        refine ⟨?_, ?_, hF⟩
        · intro x hx
          rw [shiftGo_droveSegs] at hx
          exact hall x hx
        · rw [accAfter_droveSegs]
          exact hacc
    · -- shift-end branch
      split at h
      · exact absurd h (by simp)
      · rename_i segs' stF' heq
        simp only [Except.ok.injEq, Prod.mk.injEq] at h
        obtain ⟨h1, h2⟩ := h
        subst h1
        subst h2
        have hds' : (resetShift (afterDrive st)).drivingShift ≤ 11 := by
          have : (resetShift (afterDrive st)).drivingShift = 0 := rfl
          rw [this]
          norm_num
        obtain ⟨hall, hacc, hF⟩ := ih (resetShift (afterDrive st)) segs' stF' heq hds'
        have hrw : (resetShift (afterDrive st)).drivingShift = 0 := rfl
        rw [hrw] at hall hacc
        refine ⟨?_, ?_, hF⟩
        · intro x hx
          rw [shiftGo_droveSegs, shiftGo_offSeg] at hx
          rcases List.mem_cons.mp hx with hx | hx
          · rw [hx]
            exact drivingShift_afterDrive_le st hds
          · exact hall x hx
        · rw [accAfter_droveSegs, accAfter_offSeg]
          exact hacc

theorem shiftGo_pickup_dropoff (acc : ℚ) (rest : List Seg) (note2 : String) :
    shiftGo acc (⟨DutyStatus.on_duty, 1, note2⟩ :: rest) = shiftGo acc rest := by
  apply shiftGo_cons_other
  · simp
  · simp

theorem accAfter_pickup_dropoff (acc : ℚ) (rest : List Seg) (note2 : String) :
    accAfter acc (⟨DutyStatus.on_duty, 1, note2⟩ :: rest) = accAfter acc rest := by
  apply accAfter_cons_other
  · simp
  · simp

/-- Claim C5 (spec-modelled engine): for every valid TripInput, in the
segment stream returned by `plan`, the driving segments within any single
shift — a maximal duty run bounded by off-duty/sleeper blocks of ≥ 10
hours — sum to at most 11.0 hours. -/
theorem C5_shift_driving_cap (fuel : ℕ) (input : TripInput) (segs : List Seg)
    (hdist : 0 < input.distance_mi) (hcyc0 : 0 ≤ input.cycle_hours_used)
    (hcyc70 : input.cycle_hours_used ≤ 70)
    (hok : plan fuel input = .ok segs) :
    ∀ x ∈ shiftDrivingSums segs, x ≤ 11 := by
  unfold plan at hok
  split at hok
  · exact absurd hok (by simp)
  split at hok
  · exact absurd hok (by simp)
  split at hok
  · exact absurd hok (by simp)
  rename_i segs' stF heq
  have hinit : (initState input).drivingShift = 0 := rfl
  obtain ⟨hall, hacc, hF⟩ :=
    runEngine_shift_invariant fuel (initState input) segs' stF heq (by rw [hinit]; norm_num)
  rw [hinit] at hall hacc
  split at hok
  · exact absurd hok (by simp)
  split at hok
  · -- dropoff would overflow the 14-hour window: forced reset before it
    simp only [Except.ok.injEq] at hok
    subst hok
    unfold shiftDrivingSums
    intro x hx
    rw [shiftGo_append, shiftGo_pickup_dropoff, accAfter_pickup_dropoff, hacc] at hx
    rcases List.mem_append.mp hx with hx | hx
    · exact hall x (List.dropLast_subset _ hx)
    · rw [shiftGo_offSeg, shiftGo_pickup_dropoff] at hx
      simp only [shiftGo, List.mem_cons, List.not_mem_nil, or_false] at hx
      rcases hx with hx | hx
      · rw [hx]; exact hF
      · rw [hx]; norm_num
  · simp only [Except.ok.injEq] at hok
    subst hok
    unfold shiftDrivingSums
    intro x hx
    rw [shiftGo_append, shiftGo_pickup_dropoff, accAfter_pickup_dropoff, hacc] at hx
    rcases List.mem_append.mp hx with hx | hx
    · exact hall x (List.dropLast_subset _ hx)
    · rw [shiftGo_pickup_dropoff] at hx
      simp only [shiftGo, List.mem_cons, List.not_mem_nil, or_false] at hx
      rw [hx]
      exact hF

theorem C5_shift_driving_cap_witness : (60 / 11 : ℚ) ≤ 11 :=
  C5_shift_driving_cap 1 ⟨300, 0⟩
    [⟨DutyStatus.on_duty, 1, "Pickup"⟩, ⟨DutyStatus.driving, 60 / 11, ""⟩,
     ⟨DutyStatus.on_duty, 1, "Dropoff"⟩]
    (by norm_num) le_rfl (by norm_num)
    (by with_unfolding_all rfl)
    (60 / 11)
    (by with_unfolding_all decide)
